import Mathlib

/-!
Shallow embedding of `cv_camera.py` (mintgroen/object_detector).

The program loads a camera list, publishes Home Assistant MQTT discovery
messages for every (camera, class) pair, then loops forever: for each camera
it captures a frame, runs YOLO detection, publishes per-detection attribute
and "ON" state messages, publishes "OFF" for classes that disappeared since
the previous successful cycle, records the detected class set, and sleeps
`max(0, INTERVAL - elapsed)` — once per camera, inside the camera loop.

Modelling conventions:
* Confidences are exact rationals (`ℚ`); Python's `round(x, 2)` on binary
  doubles is modelled as exact round-half-to-even at two decimal digits.
* MQTT payloads are modelled structurally: the JSON string
  `json.dumps({'confidence': c})` is the constructor `Payload.confJson c`,
  the discovery JSON object is the record `DiscoveryPayload` (`json.dumps`
  is injective on these shapes, so structural equality matches string
  equality of the wire payloads).
* `class_name.replace(" ", "_")` has a single-character pattern, so it is
  exactly a character map over the string; `safeName` models it that way.
* External collaborators (frame source, detector, broker) enter as inputs:
  a cycle's capture/inference outcome is `none` (capture returned no frame)
  or `some raw` with `raw` the list of `(class_name, confidence)` boxes.
-/

namespace CvCamera

/-- A camera entry of `config["cameras"]` as the code reads it:
`camera["name"]`, `camera["url"]`, optional `camera["output_folder"]`. -/
structure Camera where
  name : String
  url : String
  output_folder : Option String
deriving Repr, DecidableEq

/-- Device block of the discovery payload (`cv_camera.py` lines 90-95). -/
structure DeviceInfo where
  identifiers : List String
  name : String
  model : String
  manufacturer : String
deriving Repr, DecidableEq

/-- Discovery registration payload (`cv_camera.py` lines 82-96). -/
structure DiscoveryPayload where
  name : String
  state_topic : String
  json_attributes_topic : String
  payload_on : String
  payload_off : String
  device_class : String
  unique_id : String
  device : DeviceInfo
deriving Repr, DecidableEq

/-- An MQTT message body: a plain string (`"ON"`/`"OFF"`), the JSON object
`{"confidence": c}`, or a discovery registration object. -/
inductive Payload where
  | str (s : String)
  | confJson (confidence : ℚ)
  | discovery (d : DiscoveryPayload)
deriving Repr, DecidableEq

/-- One `client.publish(topic, payload, retain)` call. -/
structure Publish where
  topic : String
  payload : Payload
  retain : Bool
deriving Repr, DecidableEq

/-- Models `class_name.replace(" ", "_")`: the pattern is the single
character `' '`, so Python's `str.replace` is a character-wise map. -/
def safeName (s : String) : String :=
  String.mk (s.data.map (fun c => if c = ' ' then '_' else c))

/-- Discovery config topic, `cv_camera.py` line 77. -/
def discoveryTopic (camera_name class_name : String) : String :=
  "homeassistant/binary_sensor/object_detection/" ++ camera_name ++ "_" ++
    safeName class_name ++ "/config"

/-- Discovery payload for one (camera, class) pair, `cv_camera.py`
lines 79-96; `state_topic` and `json_attributes_topic` are the strings
built at lines 79-80. -/
def discoveryPayload (camera_name class_name : String) : DiscoveryPayload :=
  { name := camera_name ++ " " ++ class_name
    state_topic :=
      "objectdetection/" ++ camera_name ++ "/" ++ safeName class_name ++ "/state"
    json_attributes_topic :=
      "objectdetection/" ++ camera_name ++ "/" ++ safeName class_name ++ "/attributes"
    payload_on := "ON"
    payload_off := "OFF"
    device_class := "presence"
    unique_id := "cv_camera_" ++ camera_name ++ "_" ++ safeName class_name
    device :=
      { identifiers := ["cv_camera_" ++ camera_name]
        name := "Object Detection Camera - " ++ camera_name
        model := "YOLOv8 Object Detection"
        manufacturer := "Custom" } }

/-- Publishes issued by `publish_mqtt_discovery(client, cameras,
model_names)`, in order (`cv_camera.py` lines 71-98); every publish
carries `retain=True`. -/
def publish_mqtt_discovery (cameras : List Camera) (model_names : List String) :
    List Publish :=
  cameras.flatMap (fun camera =>
    model_names.map (fun class_name =>
      { topic := discoveryTopic camera.name class_name
        payload := Payload.discovery (discoveryPayload camera.name class_name)
        retain := true }))

/-- Attributes topic built in the ON loop of `main`, `cv_camera.py` line 172. -/
def mainAttributesTopic (camera_name class_name : String) : String :=
  "objectdetection/" ++ camera_name ++ "/" ++ safeName class_name ++ "/attributes"

/-- State topic built in the ON loop of `main`, `cv_camera.py` line 173. -/
def mainStateTopic (camera_name class_name : String) : String :=
  "objectdetection/" ++ camera_name ++ "/" ++ safeName class_name ++ "/state"

/-- State topic built in the OFF loop of `main`, `cv_camera.py` line 183. -/
def offStateTopic (camera_name class_name : String) : String :=
  "objectdetection/" ++ camera_name ++ "/" ++ safeName class_name ++ "/state"

/-- Round half to even at integer precision (the tie-breaking rule of
Python's builtin `round`), on exact rationals. -/
def roundHalfEven (q : ℚ) : ℤ :=
  let f := ⌊q⌋
  let frac := q - f
  if frac < 1/2 then f
  else if 1/2 < frac then f + 1
  else if f % 2 = 0 then f else f + 1

/-- Models Python's `round(confidence, 2)` (`cv_camera.py` line 160) on
exact rationals. -/
def pythonRound2 (q : ℚ) : ℚ := (roundHalfEven (q * 100) : ℚ) / 100

/-- One detection dict `{"object": class_name, "confidence": round(conf, 2)}`
(`cv_camera.py` lines 158-161). -/
structure Detection where
  object : String
  confidence : ℚ
deriving Repr, DecidableEq

/-- Builds the `detections` list from the raw `(class_name, confidence)`
boxes returned by the detector (`cv_camera.py` lines 152-161). -/
def processDetections (raw : List (String × ℚ)) : List Detection :=
  raw.map (fun r => { object := r.1, confidence := pythonRound2 r.2 })

/-- Models `detected_classes = set of d['object'] for d in detections`
(`cv_camera.py` line 164), as a duplicate-free list. -/
def detectedClasses (detections : List Detection) : List String :=
  (detections.map (fun d => d.object)).dedup

/-- Result of one camera's loop body: the publishes issued, in order, and
the value stored back into `previous_detections[camera_name]`. -/
structure CamCycleOut where
  publishes : List Publish
  newPrev : List String
deriving Repr, DecidableEq

/-- One iteration of the camera loop body of `main` (`cv_camera.py` lines
140-191) for a single camera. `prev` is `previous_detections[camera_name]`
(a set, kept as a duplicate-free list); `captureResult` is `none` when
`get_camera_frame` returned `None`, else the raw detector boxes.

When the frame is present the code publishes, for EVERY entry of
`detections` in list order, the confidence JSON to the attributes topic and
`"ON"` to the state topic (lines 167-177), then `"OFF"` for each class in
`previous_detections - detected_classes` (lines 179-185), and stores
`detected_classes` (line 188). When the frame is absent it only logs. -/
def cameraCycle (camera_name : String) (prev : List String)
    (captureResult : Option (List (String × ℚ))) : CamCycleOut :=
  match captureResult with
  | none => { publishes := [], newPrev := prev }
  | some raw =>
    let detections := processDetections raw
    let detected := detectedClasses detections
    let onPubs := detections.flatMap (fun d =>
      [ { topic := mainAttributesTopic camera_name d.object
          payload := Payload.confJson d.confidence
          retain := false }
      , { topic := mainStateTopic camera_name d.object
          payload := Payload.str "ON"
          retain := false } ])
    let disappeared := prev.filter (fun c => ¬ c ∈ detected)
    let offPubs := disappeared.map (fun c =>
      { topic := offStateTopic camera_name c
        payload := Payload.str "OFF"
        retain := false })
    { publishes := onPubs ++ offPubs, newPrev := detected }

/-- Models `sleep_time = max(0, INTERVAL - elapsed)` (`cv_camera.py`
line 196). -/
def sleepTime (interval elapsed : ℚ) : ℚ := max 0 (interval - elapsed)

/-- Wall-clock length of one camera's slot in the loop: the cycle duration
`d` plus the sleep taken right after it. In the source, `start_time`,
`elapsed` and `time.sleep` all live INSIDE the `for camera in CAMERAS`
loop (`cv_camera.py` lines 136-197), so each camera gets its own sleep. -/
def cameraSlot (interval d : ℚ) : ℚ := d + sleepTime interval d

/-- Wall-clock length of one full pass over cameras whose cycle durations
are `ds`, as the code schedules it: the sum of the per-camera slots. -/
def passDuration (interval : ℚ) (ds : List ℚ) : ℚ :=
  (ds.map (cameraSlot interval)).sum

/-- Modelled from the spec: whole-pass cadence (spec section 4.3), where a
single sleep `max(0, interval - elapsed)` follows the whole pass, so one
pass takes `max(interval, Σ d_i)`. Stated for comparison with
`passDuration`, which is what the code does. -/
def specPassDuration (interval : ℚ) (ds : List ℚ) : ℚ :=
  max interval ds.sum

/-- Modelled from the spec: the state-topic shape
`{topic_prefix}/{name}/{label}/state` with a per-camera configurable
topic prefix (spec sections 3 and 6). Stated for comparison with
`mainStateTopic`, which is what the code builds. -/
def specStateTopic (topicPref camera_name label : String) : String :=
  topicPref ++ "/" ++ camera_name ++ "/" ++ label ++ "/state"

/-- Broker model: the retained message visible on topic `t` after a list of
publishes is applied on top of a prior retained state `st`. A publish with
`retain=true` overwrites the retained message of its topic; a publish with
`retain=false` leaves retained state unchanged (MQTT semantics of the
external bus client). -/
def retainedAfter : (String → Option Payload) → List Publish → String → Option Payload
  | st, [], t => st t
  | st, p :: ps, t =>
      retainedAfter
        (fun u => if p.retain = true ∧ u = p.topic then some p.payload else st u)
        ps t

/-- The payload of the last retaining publish to topic `t` in the list, if
any (helper for reasoning about `retainedAfter`). -/
def lastWrite : List Publish → String → Option Payload
  | [], _ => none
  | p :: ps, t =>
      match lastWrite ps t with
      | some pay => some pay
      | none => if p.retain = true ∧ t = p.topic then some p.payload else none

/-- The loop body with the possibility that the detector, tracker or bus
client RAISES modelled explicitly: `main` has no `try/except` around the
camera loop (`cv_camera.py` lines 135-197), so a raised exception is not
handled there — `Except.error` passes through. A capture that merely
returns `None` (`Except.ok none`) is the handled branch of `cameraCycle`. -/
def cameraCycleExc (camera_name : String) (prev : List String)
    (input : Except String (Option (List (String × ℚ)))) :
    Except String CamCycleOut :=
  match input with
  | Except.error e => Except.error e
  | Except.ok r => Except.ok (cameraCycle camera_name prev r)

/-- One pass of the `for camera in CAMERAS` loop: threads the
`previous_detections` map and accumulates all publishes of the pass, in
order. An exception from any camera's cycle propagates out of the pass
(and hence out of `while True` and `main`), exactly as in the source. -/
def runPass (cameras : List Camera)
    (input : String → Except String (Option (List (String × ℚ))))
    (prev : String → List String) :
    Except String ((String → List String) × List Publish) :=
  cameras.foldlM
    (fun acc cam => do
      let out ← cameraCycleExc cam.name (acc.1 cam.name) (input cam.name)
      pure (fun n => if n = cam.name then out.newPrev else acc.1 n,
            acc.2 ++ out.publishes))
    (prev, ([] : List Publish))

/-- Observation helper: the confidences carried by `{"confidence": c}`
attribute payloads in a publish list, in publish order. -/
def attrConfidences (pubs : List Publish) : List ℚ :=
  pubs.filterMap (fun p =>
    match p.payload with
    | Payload.confJson c => some c
    | _ => none)

/-- Observation helper: how many `"ON"` state publishes a publish list
contains. -/
def onCount (pubs : List Publish) : Nat :=
  (pubs.filter (fun p => p.payload = Payload.str "ON")).length

/-- Observation helper: how many `"OFF"` state publishes a publish list
contains. -/
def offCount (pubs : List Publish) : Nat :=
  (pubs.filter (fun p => p.payload = Payload.str "OFF")).length

/-! Shared helper lemmas. -/

/-- One camera's slot (cycle plus its own sleep) lasts `max interval d`. -/
theorem cameraSlot_eq_max (interval d : ℚ) : cameraSlot interval d = max interval d := by
  unfold cameraSlot sleepTime
  rcases le_total d interval with h | h
  · rw [max_eq_right (by linarith : (0:ℚ) ≤ interval - d), max_eq_left h]
    ring
  · rw [max_eq_left (by linarith : interval - d ≤ (0:ℚ)), max_eq_right h]
    ring

/-- The retained message after a publish list is the payload of the last
retaining publish to that topic, or the prior retained message if none. -/
theorem retainedAfter_lastWrite (ps : List Publish) :
    ∀ (st : String → Option Payload) (t : String),
      retainedAfter st ps t = ((lastWrite ps t).elim (st t) some) := by
  induction ps with
  | nil => intro st t; rfl
  | cons p ps ih =>
      intro st t
      show retainedAfter _ ps t = _
      rw [ih]
      cases h : lastWrite ps t with
      | some pay => simp [lastWrite, h]
      | none =>
          simp only [lastWrite, h, Option.elim]
          by_cases hc : p.retain = true ∧ t = p.topic
          · simp [hc]
          · simp [hc]

/-- Replaying the same publish list on top of its own result changes no
retained message. -/
theorem retainedAfter_idem (ps : List Publish) (st : String → Option Payload) (t : String) :
    retainedAfter (retainedAfter st ps) ps t = retainedAfter st ps t := by
  rw [retainedAfter_lastWrite, retainedAfter_lastWrite]
  cases h : lastWrite ps t with
  | some pay => simp
  | none => simp [retainedAfter_lastWrite, h]

/-- Every publish issued by `publish_mqtt_discovery` has `retain=True`. -/
theorem discovery_all_retained (cameras : List Camera) (names : List String) :
    (publish_mqtt_discovery cameras names).all (fun p => p.retain) = true := by
  simp [publish_mqtt_discovery, List.all_eq_true]

/-- The attribute-payload confidences of one successful cycle are the
rounded raw confidences, one per detector box, in box order. -/
theorem attrConfidences_cycle (n : String) (prev : List String) (raw : List (String × ℚ)) :
    attrConfidences (cameraCycle n prev (some raw)).publishes =
      raw.map (fun r => pythonRound2 r.2) := by
  unfold cameraCycle attrConfidences
  simp only [List.filterMap_append]
  have hoff : ∀ (l : List String),
      (l.map (fun c => ({ topic := offStateTopic n c
                          payload := Payload.str "OFF"
                          retain := false } : Publish))).filterMap
        (fun p => match p.payload with | Payload.confJson c => some c | _ => none) = [] := by
    intro l
    induction l with
    | nil => rfl
    | cons a l ih => simp [ih]
  rw [hoff, List.append_nil]
  unfold processDetections
  induction raw with
  | nil => rfl
  | cons r raw ih => simpa using ih

/-- The space-substituted class name contains no space character. -/
theorem safeName_no_space (l : String) : (safeName l).data.contains ' ' = false := by
  unfold safeName
  simp only [String.mk]
  induction l.data with
  | nil => rfl
  | cons c cs ih =>
      simp only [List.map_cons, List.contains_cons]
      rw [ih]
      by_cases h : c = ' '
      · simp [h]
      · simp only [if_neg h, Bool.or_false]
        simp only [beq_eq_false_iff_ne, ne_eq]
        exact fun hh => h hh.symm

/-! Claim theorems. -/

/-- C1: evaluation at the failing input. With previous label set `{cat}`
and the current cycle again detecting `cat` (confidence 0.9), the claim
demands no publish at all for `cat` (it is in `A ∩ B`), but the cycle
publishes the attributes JSON and `"ON"` for `cat` once more: the ON loop
iterates every entry of `detections`, not the newly appeared labels. -/
theorem c1_still_present_label_republished :
    (cameraCycle "cam" ["cat"] (some [("cat", 9/10)])).publishes =
      [ { topic := mainAttributesTopic "cam" "cat"
          payload := Payload.confJson (pythonRound2 (9/10))
          retain := false }
      , { topic := mainStateTopic "cam" "cat"
          payload := Payload.str "ON"
          retain := false } ] ∧
    onCount (cameraCycle "cam" ["cat"] (some [("cat", 9/10)])).publishes = 1 ∧
    (cameraCycle "cam" ["cat"] (some [("cat", 9/10)])).newPrev = ["cat"] :=
  ⟨rfl, rfl, rfl⟩

/-- C2 counterexample: with interval 10 and two cameras of duration 1 each,
the code's pass (a sleep after EVERY camera) lasts 20, while the claimed
whole-pass cadence (one sleep after all cameras) would last
`max(10, 1+1) = 10`. -/
theorem c2_whole_pass_cadence_false :
    passDuration 10 [1, 1] = 20 ∧ specPassDuration 10 [1, 1] = 10 ∧
      passDuration 10 [1, 1] ≠ specPassDuration 10 [1, 1] := by
  refine ⟨?_, ?_, ?_⟩ <;>
    norm_num [passDuration, specPassDuration, cameraSlot, sleepTime]

/-- C2 amended: the scheduler uses per-camera cadence. `start_time`,
`elapsed` and the sleep all sit inside the camera loop, so each camera's
slot lasts `max(interval, d_i)`, a pass over cameras with durations `ds`
lasts `Σ_i max(interval, d_i)`, and every sleep is `max(0, ·) ≥ 0`, never
negative. -/
theorem c2_per_camera_cadence (interval : ℚ) (ds : List ℚ) :
    passDuration interval ds = (ds.map (fun d => max interval d)).sum ∧
      ∀ e : ℚ, 0 ≤ sleepTime interval e := by
  constructor
  · unfold passDuration
    induction ds with
    | nil => rfl
    | cons d ds ih =>
        simp only [List.map_cons, List.sum_cons, ih, cameraSlot_eq_max]
  · intro e
    exact le_max_left 0 _

/-- C3 counterexample: with detections `[(cat, 0.9), (cat, 0.6)]` in one
cycle, the attributes payloads published for `cat` are `0.9` then `0.6` in
list order; the payload left standing on the attributes topic carries
`0.6`, strictly below the highest confidence `0.9`, refuting the claimed
highest-confidence tie-break. -/
theorem c3_highest_confidence_false :
    attrConfidences (cameraCycle "cam" [] (some [("cat", 9/10), ("cat", 6/10)])).publishes
      = [9/10, 6/10] ∧
    (attrConfidences (cameraCycle "cam" [] (some [("cat", 9/10), ("cat", 6/10)])).publishes).getLast?
      = some (6/10) ∧
    ((6 : ℚ)/10 < 9/10) := by
  have h : attrConfidences (cameraCycle "cam" [] (some [("cat", 9/10), ("cat", 6/10)])).publishes
      = [9/10, 6/10] := by
    rw [attrConfidences_cycle]
    norm_num [pythonRound2, roundHalfEven]
  refine ⟨h, ?_, by norm_num⟩
  rw [h]
  rfl

/-- C3 amended: the cycle performs no per-label aggregation at all. For a
label detected twice it publishes one attributes payload per detection, in
detection-list order, each carrying that detection's own rounded
confidence; the payload that ends up on the topic is the LAST detection's
confidence, not the highest. -/
theorem c3_attributes_follow_list_order (n : String) (prev : List String)
    (l : String) (c₁ c₂ : ℚ) :
    attrConfidences (cameraCycle n prev (some [(l, c₁), (l, c₂)])).publishes
      = [pythonRound2 c₁, pythonRound2 c₂] ∧
    (attrConfidences (cameraCycle n prev (some [(l, c₁), (l, c₂)])).publishes).getLast?
      = some (pythonRound2 c₂) := by
  have h : attrConfidences (cameraCycle n prev (some [(l, c₁), (l, c₂)])).publishes
      = [pythonRound2 c₁, pythonRound2 c₂] := by
    rw [attrConfidences_cycle]
    rfl
  exact ⟨h, by rw [h]; rfl⟩

/-- C4: a cycle whose capture returns no frame publishes nothing and
leaves `previous_detections[camera_name]` exactly as it was. -/
theorem c4_capture_failure_freezes_state (n : String) (prev : List String) :
    cameraCycle n prev none = { publishes := [], newPrev := prev } := rfl

/-- C5 counterexample: `main` wraps no `try/except` around the camera
loop. If the first camera's cycle raises, the pass aborts with that
exception and the second camera is never cycled — nothing of it is
published, contradicting the claim that per-camera exceptions are caught
and the pass continues. -/
theorem c5_exception_not_caught :
    runPass [⟨"cam1", "rtsp://1", none⟩, ⟨"cam2", "rtsp://2", none⟩]
      (fun n => if n = "cam1" then Except.error "predict raised"
                else Except.ok (some [("dog", 1/2)]))
      (fun _ => []) = Except.error "predict raised" := rfl

/-- C5 amended: an exception raised inside a camera's cycle is NOT caught:
it propagates out of the pass (and hence out of `while True` and `main`),
aborting the remaining cameras. Only a capture that returns no frame is
handled per-camera. -/
theorem c5_exception_propagates (c : Camera) (cs : List Camera)
    (input : String → Except String (Option (List (String × ℚ))))
    (prev : String → List String) (e : String)
    (h : input c.name = Except.error e) :
    runPass (c :: cs) input prev = Except.error e := by
  unfold runPass
  simp [List.foldlM, cameraCycleExc, h, Except.bind]
  rfl

/-- C5 witness: the amended theorem applied to a concrete one-camera pass
whose cycle raises `"boom"`. -/
theorem c5_exception_propagates_witness :
    runPass [⟨"camA", "rtsp://a", none⟩] (fun _ => Except.error "boom")
      (fun _ => []) = Except.error "boom" :=
  c5_exception_propagates ⟨"camA", "rtsp://a", none⟩ []
    (fun _ => Except.error "boom") (fun _ => []) "boom" rfl

/-- C6: the `state_topic` and `json_attributes_topic` strings bound in the
discovery payload are character-for-character the topics the runtime cycle
publishes that camera/label's state and attributes messages to, for ON and
OFF alike. -/
theorem c6_discovery_topics_match_runtime (n l : String) (c : ℚ) :
    (discoveryPayload n l).state_topic = mainStateTopic n l ∧
    (discoveryPayload n l).json_attributes_topic = mainAttributesTopic n l ∧
    (cameraCycle n [] (some [(l, c)])).publishes =
      [ { topic := (discoveryPayload n l).json_attributes_topic
          payload := Payload.confJson (pythonRound2 c)
          retain := false }
      , { topic := (discoveryPayload n l).state_topic
          payload := Payload.str "ON"
          retain := false } ] ∧
    (cameraCycle n [l] (some [])).publishes =
      [ { topic := (discoveryPayload n l).state_topic
          payload := Payload.str "OFF"
          retain := false } ] :=
  ⟨rfl, rfl, rfl, rfl⟩

/-- C7 counterexample: a camera configured (per the spec) with topic
prefix `"myhome"` would publish to `myhome/front/cat/state`, but the code
publishes `front`/`cat` state to the constant-prefixed
`objectdetection/front/cat/state`; the two differ. -/
theorem c7_configurable_topic_root_false :
    specStateTopic "myhome" "front" "cat" ≠ mainStateTopic "front" "cat" ∧
    mainStateTopic "front" "cat" = "objectdetection/front/cat/state" :=
  ⟨by decide, by decide⟩

/-- C7 amended: the state topic has the claimed `{prefix}/{name}/{label}/state`
shape, but the prefix slot is the program constant `"objectdetection"` for
every camera and label; the camera config entries carry no topic prefix
field at all. -/
theorem c7_constant_topic_root (n l : String) :
    mainStateTopic n l = specStateTopic "objectdetection" n (safeName l) := rfl

/-- C8: discovery publishing is idempotent. Every publish it issues is
retained, a second call issues the identical publish list (the function is
pure), and replaying that list on top of its own retained result leaves
every topic's retained payload unchanged. -/
theorem c8_discovery_idempotent (cameras : List Camera) (names : List String)
    (st : String → Option Payload) (t : String) :
    ((publish_mqtt_discovery cameras names).all (fun p => p.retain)) = true ∧
    retainedAfter (retainedAfter st (publish_mqtt_discovery cameras names))
        (publish_mqtt_discovery cameras names) t
      = retainedAfter st (publish_mqtt_discovery cameras names) t :=
  ⟨discovery_all_retained cameras names, retainedAfter_idem _ _ _⟩

/-- C9: every `DetectionRecord` confidence is the detector's raw
confidence rounded to 2 decimal digits, and the attributes payloads
publish exactly those record confidences. -/
theorem c9_confidence_rounded (n : String) (prev : List String)
    (raw : List (String × ℚ)) :
    ((processDetections raw).map (fun d => d.confidence)
      = raw.map (fun r => pythonRound2 r.2)) ∧
    attrConfidences (cameraCycle n prev (some raw)).publishes
      = (processDetections raw).map (fun d => d.confidence) := by
  have h1 : (processDetections raw).map (fun d => d.confidence)
      = raw.map (fun r => pythonRound2 r.2) := by
    unfold processDetections
    rw [List.map_map]
    rfl
  exact ⟨h1, by rw [attrConfidences_cycle, h1]⟩

/-- C10: every published topic — discovery config, discovery-bound state
and attributes, runtime ON state, runtime attributes, runtime OFF state —
embeds the label as the SAME space-to-underscore substituted segment
`safeName l`, that segment contains no space character, and the
discovery-bound topics coincide with the runtime ones. -/
theorem c10_label_space_substitution (n l : String) :
    discoveryTopic n l
      = "homeassistant/binary_sensor/object_detection/" ++ n ++ "_" ++
          safeName l ++ "/config" ∧
    (discoveryPayload n l).state_topic
      = "objectdetection/" ++ n ++ "/" ++ safeName l ++ "/state" ∧
    mainStateTopic n l = "objectdetection/" ++ n ++ "/" ++ safeName l ++ "/state" ∧
    mainAttributesTopic n l
      = "objectdetection/" ++ n ++ "/" ++ safeName l ++ "/attributes" ∧
    (discoveryPayload n l).json_attributes_topic = mainAttributesTopic n l ∧
    offStateTopic n l = mainStateTopic n l ∧
    (safeName l).data.contains ' ' = false :=
  ⟨rfl, rfl, rfl, rfl, rfl, rfl, safeName_no_space l⟩

end CvCamera
